import Mathlib

/-!
# Verification of the YouTube live-chat aggregation core

Shallow embedding of the algorithmic core of a YouTube live-chat /
metadata scraping service (URL parsing, token caching, message cache
merge, filtering and pagination, badge-based role derivation, raw
message truncation, metadata error handling and like-count parsing),
together with theorems settling the specification's claims about it.

Machine integers are modelled as `Nat` (JS numbers here are timestamps
in milliseconds and small counts, far below 2^53, so no overflow
occurs); JS strings are modelled as `String` or `List Char`.
-/

namespace YTChat

/-! ## Canonical chat message shape

Mirrors the `ChatMessage` interface; only the fields the claims touch
are carried (`id`, and the parsed millisecond value of `timestamp` —
the source always compares `new Date(msg.timestamp).getTime()`). -/

structure ChatMsg where
  id : String
  timestamp : Nat
  deriving DecidableEq

/-- The comparator `(a, b) => new Date(a.timestamp).getTime() - new Date(b.timestamp).getTime()`
used by every `Array.sort` call in the source, as a binary relation. -/
def tsLe (a b : ChatMsg) : Prop := a.timestamp ≤ b.timestamp

instance : DecidableRel tsLe := fun a b => Nat.decLe a.timestamp b.timestamp

instance : IsTotal ChatMsg tsLe := ⟨fun a b => Nat.le_total a.timestamp b.timestamp⟩

instance : IsTrans ChatMsg tsLe := ⟨fun _ _ _ h h' => Nat.le_trans h h'⟩

/-- `array.sort((a, b) => new Date(a.timestamp).getTime() - new Date(b.timestamp).getTime())`:
a stable sort ascending by timestamp. -/
def sortByTs (l : List ChatMsg) : List ChatMsg := List.insertionSort tsLe l

/-! ## URL/ID parser (`src/utils/directTokenExtractor.ts` / `.js`)

The source is
```
const regExp = /^.*((youtu.be\/)|(v\/)|(\/u\/\w\/)|(embed\/)|(watch\?))\??v?=?([^#&?]*).*/;
const match = url.match(regExp);
return (match && match[7].length === 11) ? match[7] : null;
```
Backtracking semantics of this regex: the greedy `^.*` selects the
LAST position at which one of the five alternatives matches (everything
after the alternative is optional, so the whole regex succeeds exactly
when an alternative matches somewhere); at that position the
alternatives are tried in order; after the matched alternative the
engine greedily consumes an optional `?`, then an optional `v`, then an
optional `=`, and capture group 7 greedily takes the longest run of
characters outside `#&?`.  Note the unescaped dot in `youtu.be\/`
(matches any character) and that no alternative matches the `/live/`
URL shape. -/

/-- JS `\w`: `[A-Za-z0-9_]`. -/
def isWordChar (c : Char) : Bool := c.isAlpha || c.isDigit || c == '_'

/-- Does alternative 2, `(youtu.be\/)` (dot unescaped, any char), match here? -/
def matchYoutuBe : List Char → Bool
  | 'y' :: 'o' :: 'u' :: 't' :: 'u' :: _ :: 'b' :: 'e' :: '/' :: _ => true
  | _ => false

/-- Does alternative 3, `(v\/)`, match here? -/
def matchVSlash : List Char → Bool
  | 'v' :: '/' :: _ => true
  | _ => false

/-- Does alternative 4, `(\/u\/\w\/)`, match here? -/
def matchUSlash : List Char → Bool
  | '/' :: 'u' :: '/' :: c :: '/' :: _ => isWordChar c
  | _ => false

/-- Does alternative 5, `(embed\/)`, match here? -/
def matchEmbed : List Char → Bool
  | 'e' :: 'm' :: 'b' :: 'e' :: 'd' :: '/' :: _ => true
  | _ => false

/-- Does alternative 6, `(watch\?)`, match here? -/
def matchWatch : List Char → Bool
  | 'w' :: 'a' :: 't' :: 'c' :: 'h' :: '?' :: _ => true
  | _ => false

/-- First alternative (in the regex's order) matching at the head of `s`,
with the length it consumes. -/
def altMatch (s : List Char) : Option Nat :=
  if matchYoutuBe s then some 9
  else if matchVSlash s then some 2
  else if matchUSlash s then some 5
  else if matchEmbed s then some 6
  else if matchWatch s then some 6
  else none

/-- Last position (the one greedy `^.*` settles on) where an alternative
matches, together with the consumed length. -/
def findLastAlt : List Char → Option (Nat × Nat)
  | [] => none
  | c :: rest =>
    match findLastAlt rest with
    | some (p, l) => some (p + 1, l)
    | none =>
      match altMatch (c :: rest) with
      | some l => some (0, l)
      | none => none

/-- Greedily consume one optional literal character (`\??`, `v?`, `=?`). -/
def consumeOpt (c : Char) : List Char → List Char
  | [] => []
  | x :: xs => if x == c then xs else x :: xs

/-- Capture group 7, `([^#&?]*)`: longest run outside `#`, `&`, `?`. -/
def group7 (s : List Char) : List Char :=
  s.takeWhile (fun c => !(c == '#' || c == '&' || c == '?'))

/-- `extractVideoId` from `src/utils/directTokenExtractor.ts` lines 19–23
(identical in `directTokenExtractor.js` and `src/unnamed/part_006`). -/
def extractVideoId (url : String) : Option String :=
  match findLastAlt url.toList with
  | none => none
  | some (p, l) =>
    let rest := (url.toList.drop p).drop l
    let rest := consumeOpt '?' rest
    let rest := consumeOpt 'v' rest
    let rest := consumeOpt '=' rest
    let m7 := group7 rest
    if m7.length = 11 then some (String.mk m7) else none

/-! ## Message cache (`src/unnamed/part_006`, cursor-based `getLiveChat`)

```
const CACHE_EXPIRATION = 5 * 60 * 1000;
const MAX_CACHED_MESSAGES = 2000;
```
The cache is the process-wide object `messageCache`, modelled as an
association list keyed by `videoId`. -/

def MAX_CACHED_MESSAGES : Nat := 2000

def CACHE_EXPIRATION : Nat := 5 * 60 * 1000

structure CacheEntry where
  messages : List ChatMsg
  lastFetched : Nat
  continuation : Option String := none
  deriving DecidableEq

/-- The body of the sorted-dedup-merge, lines 124–129: dedup the new
batch against the cached ids, concatenate, sort ascending. -/
def mergedSorted (cached newMessages : List ChatMsg) : List ChatMsg :=
  let existingCacheIds := cached.map (fun msg => msg.id)
  let uniqueNewMessages := newMessages.filter (fun msg => !(existingCacheIds.contains msg.id))
  sortByTs (cached ++ uniqueNewMessages)

/-- Cache merge, `src/unnamed/part_006` lines 122–138: dedup against the
existing cached set by id, concatenate, sort by timestamp, and when the
result exceeds `MAX_CACHED_MESSAGES` keep `slice(-MAX_CACHED_MESSAGES)`
(the last 2000, i.e. drop from the oldest end). -/
def mergeCache (cached newMessages : List ChatMsg) : List ChatMsg :=
  let combined := mergedSorted cached newMessages
  if combined.length > MAX_CACHED_MESSAGES then
    combined.drop (combined.length - MAX_CACHED_MESSAGES)
  else combined

/-- Expired-entry cleanup, lines 92–98: every entry of the process-wide
`messageCache` whose `lastFetched` is more than `CACHE_EXPIRATION` old
is deleted — the loop ranges over ALL cached video ids, not just the
one being processed. (JS `now - lastFetched` can be negative when the
entry is from the future; then it is kept, exactly as `Nat` truncated
subtraction gives `0 > CACHE_EXPIRATION = False`.) -/
def cleanupCache (now : Nat) (cache : List (String × CacheEntry)) :
    List (String × CacheEntry) :=
  cache.filter (fun kv => !(decide (now - kv.2.lastFetched > CACHE_EXPIRATION)))

/-- Association-list write `cacheObject[key] = entry` (used for the
message cache and the token caches alike). -/
def putEntry {β : Type} (cache : List (String × β)) (key : String)
    (entry : β) : List (String × β) :=
  if cache.any (fun kv => kv.1 == key) then
    cache.map (fun kv => if kv.1 == key then (key, entry) else kv)
  else cache ++ [(key, entry)]

/-- The cache update performed while processing one URL of a
`getLiveChat` call (`src/unnamed/part_006` lines 92–138) on the
fetch-fresh path: first the global expired-entry sweep, then the
per-video insert (lines 116–121) or merge (lines 122–138). -/
def cacheStep (videoId : String) (now : Nat) (newMessages : List ChatMsg)
    (continuation : Option String) (cache : List (String × CacheEntry)) :
    List (String × CacheEntry) :=
  let cleaned := cleanupCache now cache
  match cleaned.lookup videoId with
  | none =>
    putEntry cleaned videoId
      { messages := newMessages, lastFetched := now, continuation := continuation }
  | some entry =>
    putEntry cleaned videoId
      { messages := mergeCache entry.messages newMessages
        lastFetched := now
        continuation := continuation }

/-- Result filtering after the per-video lists are flattened
(`src/unnamed/part_006` lines 159–175): exclude ids the client already
has (only when the exclusion list is non-empty), keep only messages
strictly after the `after` cursor (only when a cursor was supplied),
then sort ascending by timestamp.  `after` is carried already parsed
to milliseconds (`new Date(after).getTime()`). -/
def filterPhase (allMessages : List ChatMsg) (messageIds : List String)
    (after : Option Nat) : List ChatMsg :=
  let m1 :=
    if messageIds.length > 0 then
      allMessages.filter (fun msg => !(messageIds.contains msg.id))
    else allMessages
  let m2 :=
    match after with
    | some afterTime => m1.filter (fun msg => decide (msg.timestamp > afterTime))
    | none => m1
  sortByTs m2

/-- Pagination of the cursor-based `getLiveChat`
(`src/unnamed/part_006` lines 177–194): head `pageSize` when the list
overflows, `hasMore`, and `lastTimestamp` of the last returned
message. -/
def paginateIncremental (allMessages : List ChatMsg) (pageSize : Nat) :
    List ChatMsg × Bool × Option Nat :=
  let totalCount := allMessages.length
  let hasMore := totalCount > pageSize
  let paginatedMessages := if hasMore then allMessages.take pageSize else allMessages
  let lastTimestamp := (paginatedMessages.getLast?).map (fun msg => msg.timestamp)
  (paginatedMessages, decide hasMore, lastTimestamp)

/-! ## Snapshot-style `getLiveChat` (`src/api/liveChat.js`)

Its per-video filtering (lines 120–144 on the fresh path, 53–73 on the
cached path) ends with `slice(-pageSize)` — the per-video list is
truncated to its most recent `pageSize` entries; the combined result of
all videos is then only sorted (line 156), never truncated. -/

/-- `if (filteredMessages.length > pageSize) filteredMessages = filteredMessages.slice(-pageSize);` -/
def snapshotTrunc (pageSize : Nat) (filteredMessages : List ChatMsg) : List ChatMsg :=
  if filteredMessages.length > pageSize then
    filteredMessages.drop (filteredMessages.length - pageSize)
  else filteredMessages

/-- The snapshot-style combined result: each video's filtered list is
tail-truncated to `pageSize`, the truncated lists are concatenated and
the concatenation sorted ascending by timestamp. -/
def snapshotCombine (perVideoFiltered : List (List ChatMsg)) (pageSize : Nat) :
    List ChatMsg :=
  sortByTs ((perVideoFiltered.map (snapshotTrunc pageSize)).flatten)

/-! ## Badge-based role derivation

Two independent normalizers exist.  A badge is modelled as
`Option String`: `none` when the raw badge lacks a
`liveChatAuthorBadgeRenderer` (or, for `formatters.js`, an
`icon.iconType`); `some s` carries the `iconType`
(for `formatters.js`) or the tooltip / accessibility label text
(for `part_004`). -/

/-- The badge loop of `extractAuthorInfo`, `src/utils/formatters.js`
lines 156–172: every badge is visited, the `if/else if` chain assigns
on each recognized `iconType`, there is NO break and NO priority — a
later recognized badge overwrites an earlier one. -/
def userTypeFormatters (authorBadges : List (Option String)) : String :=
  authorBadges.foldl
    (fun userType badge =>
      match badge with
      | some iconType =>
        if iconType == "MODERATOR" then "moderator"
        else if iconType == "OWNER" then "owner"
        else if iconType == "MEMBER" then "member"
        else userType
      | none => userType)
    "regular"

/-- `startsWithChars needle s`: `needle` is an initial segment of `s`. -/
def startsWithChars : List Char → List Char → Bool
  | [], _ => true
  | _ :: _, [] => false
  | a :: as, b :: bs => a == b && startsWithChars as bs

/-- JS `String.prototype.includes`: `needle` occurs contiguously in `s`. -/
def containsChars (needle : List Char) : List Char → Bool
  | [] => startsWithChars needle []
  | c :: tl => startsWithChars needle (c :: tl) || containsChars needle tl

/-- `badgeText.toLowerCase().includes(needle)` (the needles in the
source are lowercase literals). -/
def includesLower (badgeText needle : String) : Bool :=
  containsChars needle.toList (badgeText.toList.map Char.toLower)

/-- The badge loop of `formatChatMessages`, `src/unnamed/part_004`
lines 96–119, running with current value `userType`: an owner badge
breaks out immediately; a moderator or member badge assigns and
continues scanning. -/
def part4BadgeLoop : List (Option String) → String → String
  | [], userType => userType
  | none :: rest, userType => part4BadgeLoop rest userType
  | some badgeText :: rest, userType =>
    if includesLower badgeText "owner" then "owner"
    else if includesLower badgeText "moderator" then part4BadgeLoop rest "moderator"
    else if includesLower badgeText "member" then part4BadgeLoop rest "member"
    else part4BadgeLoop rest userType

/-- Role derivation of `src/unnamed/part_004` lines 96–119 (initial
value `'regular'`; an absent or empty badge list leaves it). -/
def userTypePart4 (authorBadges : List (Option String)) : String :=
  part4BadgeLoop authorBadges "regular"

/-! ## Token extraction caching

`src/utils/directTokenExtractor.ts` (and `src/scraping/puppeteer.ts`)
versus `src/utils/directTokenExtractor.js`.  The network fetch and the
regex extraction of the page blobs are the I/O boundary; the extracted
field values (possibly empty strings when a pattern found nothing) are
inputs of the step functions. -/

def TOKEN_CACHE_EXPIRATION : Nat := 15 * 60 * 1000

structure TokenEntryTs where
  apiKey : String
  clientVersion : String
  visitorData : String
  continuationToken : String
  rawHtml : String
  timestamp : Nat
  deriving DecidableEq

/-- `extractYouTubeTokens`, `src/utils/directTokenExtractor.ts` lines
39–144 (the caching structure of `src/scraping/puppeteer.ts` lines
194–214 is the same): fresh cache hit returns the entry; otherwise the
result built from the extracted values — `continuationToken` possibly
empty after all fallbacks — is stored in the cache UNCONDITIONALLY
(lines 127–139) and returned. -/
def extractTokensStepTs (cache : List (String × TokenEntryTs)) (videoUrl : String)
    (now : Nat) (apiKey clientVersion visitorData liveChatToken rawHtml : String) :
    List (String × TokenEntryTs) × TokenEntryTs :=
  let result : TokenEntryTs :=
    { apiKey := apiKey, clientVersion := clientVersion, visitorData := visitorData
      continuationToken := liveChatToken, rawHtml := rawHtml, timestamp := now }
  let fetchPath := (putEntry cache videoUrl result, result)
  match cache.lookup videoUrl with
  | some cachedData =>
    if now - cachedData.timestamp < TOKEN_CACHE_EXPIRATION then (cache, cachedData)
    else fetchPath
  | none => fetchPath

structure TokenEntryJs where
  apiKey : String
  clientVersion : String
  visitorData : String
  continuation : String
  rawHtml : String
  timestamp : Nat
  title : String
  channelName : String
  deriving DecidableEq

/-- `extractYouTubeTokens`, `src/utils/directTokenExtractor.js` lines
32–148: fresh cache hit returns the entry; otherwise, when the
extracted live-chat token is empty the function returns `null` WITHOUT
touching the cache (lines 122–125); only a result with a non-empty
continuation is cached (lines 127–142).  `clientVersion` defaults to
`'2.0'` when extraction found none. -/
def extractTokensStepJs (cache : List (String × TokenEntryJs)) (videoUrl : String)
    (now : Nat)
    (apiKey clientVersion visitorData liveChatToken rawHtml title channelName : String) :
    List (String × TokenEntryJs) × Option TokenEntryJs :=
  let fetchPath :=
    if liveChatToken == "" then (cache, none)
    else
      let result : TokenEntryJs :=
        { apiKey := apiKey
          clientVersion := if clientVersion == "" then "2.0" else clientVersion
          visitorData := visitorData
          continuation := liveChatToken
          rawHtml := rawHtml
          timestamp := now
          title := title
          channelName := channelName }
      (putEntry cache videoUrl result, some result)
  match cache.lookup videoUrl with
  | some cachedData =>
    if now - cachedData.timestamp < TOKEN_CACHE_EXPIRATION then (cache, some cachedData)
    else fetchPath
  | none => fetchPath

/-! ## Chat poller truncation (`src/utils/directTokenExtractor.js`,
`fetchLiveChatMessages`, lines 183–260)

A raw action is modelled as `Option String`: `some item` when the
action has `addChatItemAction.item`, `none` otherwise; the raw item
payloads themselves are left uninterpreted. -/

/-- Lines 228–235: collect `action.addChatItemAction.item` of every
action that has one, in order. -/
def extractActionItems (actions : List (Option String)) : List String :=
  actions.filterMap (fun action => action)

/-- Line 249, `messages: messages.slice(0, pageSize)`: the list
returned to the caller. -/
def fetchMessagesResult (actions : List (Option String)) (pageSize : Nat) :
    List String :=
  (extractActionItems actions).take pageSize

/-! ## Metadata fetch error handling -/

structure VideoMetadataR where
  videoId : String
  videoUrl : String
  title : Option String := none
  viewCount : Nat := 0
  likeCount : Nat := 0
  isLive : Bool := false
  channelName : Option String := none
  error : Option String := none
  deriving DecidableEq

/-- Per-URL processing of `getVideoMetadata`,
`src/api/channelLiveVideos.ts` lines 702–760: the token extraction /
fetch / parse pipeline (whose result is the `outcome` input — the TS
`extractYouTubeTokens` throws on failure) is wrapped in a catch that
returns a record with zeroed counts and a populated `error` instead of
re-raising. -/
def processMetadataUrlTs (url : String) (outcome : Except String VideoMetadataR) :
    VideoMetadataR :=
  match outcome with
  | Except.ok metadata => metadata
  | Except.error e =>
    { videoId := (extractVideoId url).getD "unknown"
      videoUrl := url
      viewCount := 0
      likeCount := 0
      isLive := false
      error := some ("Failed to fetch: " ++ e) }

/-- Per-URL processing of `getVideoMetadata`, `src/api/videoMetadata.js`
lines 214–288, at the granularity of its non-throwing I/O results: the
JS `extractYouTubeTokens` returns `null` on failure (never throws), and
`fetchVideoMetadata` returns `null` on failure; `parseMetadata` always
returns a record.  Result: the metadata record pushed for this URL (if
any) and the error strings pushed. -/
def processMetadataUrlJs (videoId : String) (tokens : Option TokenEntryJs)
    (directMetadata : Option VideoMetadataR) (combinedMetadata : VideoMetadataR) :
    Option VideoMetadataR × List String :=
  match tokens with
  | none =>
    match directMetadata with
    | some metadata => (some metadata, [])
    | none => (none, ["Could not extract metadata for video: " ++ videoId])
  | some _ => (some combinedMetadata, [])

/-- The record built by the outer catch of `src/api/videoMetadata.js`
lines 278–287 when per-URL processing throws. -/
def jsCatchMetadata (videoId url errMsg : String) : VideoMetadataR :=
  { videoId := videoId
    videoUrl := url
    title := some ("Video " ++ videoId)
    viewCount := 0
    likeCount := 0
    isLive := false
    error := some errMsg }

/-! ## Like-count parsing (`src/api/channelLiveVideos.ts` lines 627–671)

One `likeCountEntity` mutation payload.  JS `parseInt(x, 10)` coerces a
number argument to its decimal string, so the exact-integer encoding is
carried as its digit string. -/

structure LikeCountEntity where
  likeCountIfIndifferentNumber : Option String := none
  expandedLikeCountIfIndifferentContent : Option String := none
  likeCountIfIndifferentContent : Option String := none

/-- JS truthiness of an optional string field (`undefined` and `''` are
falsy). -/
def jsTruthyStr : Option String → Bool
  | some s => !(s == "")
  | none => false

/-- `s.replace(/[^0-9]/g, '')`. -/
def digitsOnly (s : String) : String :=
  String.mk (s.toList.filter (fun c => c.isDigit))

def digitsToNat (ds : List Char) : Nat :=
  ds.foldl (fun n c => n * 10 + (c.toNat - '0'.toNat)) 0

/-- `parseInt(s, 10)` as used here (no sign or whitespace in the
inputs): the leading digit run, `none` for NaN. -/
def jsParseInt (s : String) : Option Nat :=
  let ds := s.toList.takeWhile (fun c => c.isDigit)
  if ds.isEmpty then none else some (digitsToNat ds)

/-- `/\d+K/.test(s)`: some digit immediately followed by `K`. -/
def digitsKAt : List Char → Bool
  | c1 :: c2 :: rest => (c1.isDigit && c2 == 'K') || digitsKAt (c2 :: rest)
  | _ => false

def testDigitsK (s : String) : Bool := digitsKAt s.toList

/-- Lines 636–662: the `likeCount` value computed from one
`likeCountEntity` (`none` models NaN; when no field is present the
variable keeps its initial `0`).  Path order: the precise number field,
then the expanded comma-formatted string, then the abbreviated string
(multiplied by 1000 when it matches `/\d+K/`). -/
def likeCountFromEntity (e : LikeCountEntity) : Option Nat :=
  if jsTruthyStr e.likeCountIfIndifferentNumber then
    jsParseInt (e.likeCountIfIndifferentNumber.getD "")
  else if jsTruthyStr e.expandedLikeCountIfIndifferentContent then
    jsParseInt (digitsOnly (e.expandedLikeCountIfIndifferentContent.getD ""))
  else if jsTruthyStr e.likeCountIfIndifferentContent then
    let abbreviated := e.likeCountIfIndifferentContent.getD ""
    if testDigitsK abbreviated then
      (jsParseInt (digitsOnly abbreviated)).map (fun base => base * 1000)
    else jsParseInt (digitsOnly abbreviated)
  else some 0

/-- Does a badge carry text recognized as an owner badge by the
`part_004` loop? -/
def ownerBadgeB : Option String → Bool
  | some badgeText => includesLower badgeText "owner"
  | none => false

/-! ## Helper lemmas -/

theorem sortByTs_sorted (l : List ChatMsg) : (sortByTs l).Sorted tsLe :=
  List.sorted_insertionSort tsLe l

theorem sortByTs_perm (l : List ChatMsg) : List.Perm (sortByTs l) l :=
  List.perm_insertionSort tsLe l

/-- A key different from the written one is untouched by `putEntry`. -/
theorem mem_putEntry_of_ne {β : Type} {cache : List (String × β)} {key k : String}
    {entry e : β} (hk : k ≠ key) :
    (k, e) ∈ putEntry cache key entry ↔ (k, e) ∈ cache := by
  unfold putEntry
  by_cases h : cache.any (fun kv => kv.1 == key) = true
  · rw [if_pos h]
    constructor
    · intro hm
      rcases List.mem_map.mp hm with ⟨kv, hkv, hf⟩
      by_cases h1 : (kv.1 == key) = true
      · rw [if_pos h1] at hf
        exact absurd (congrArg Prod.fst hf).symm hk
      · rw [if_neg h1] at hf
        exact hf ▸ hkv
    · intro hm
      refine List.mem_map.mpr ⟨(k, e), hm, ?_⟩
      have h1 : ((k, e).1 == key) ≠ true := by
        simpa [beq_iff_eq] using hk
      rw [if_neg h1]
  · rw [if_neg h]
    rw [List.mem_append, List.mem_singleton]
    constructor
    · rintro (hm | hm)
      · exact hm
      · exact absurd (congrArg Prod.fst hm) hk
    · exact Or.inl

/-- Every element of `putEntry cache key entry` is an old element or the
written pair. -/
theorem mem_putEntry {β : Type} {cache : List (String × β)} {key : String}
    {entry : β} {kv : String × β} (h : kv ∈ putEntry cache key entry) :
    kv ∈ cache ∨ kv = (key, entry) := by
  unfold putEntry at h
  by_cases ha : cache.any (fun kv => kv.1 == key) = true
  · rw [if_pos ha] at h
    rcases List.mem_map.mp h with ⟨kv', hkv', hf⟩
    by_cases h1 : (kv'.1 == key) = true
    · rw [if_pos h1] at hf
      exact Or.inr hf.symm
    · rw [if_neg h1] at hf
      exact Or.inl (hf ▸ hkv')
  · rw [if_neg ha, List.mem_append, List.mem_singleton] at h
    exact h

/-- Membership in the expired-entry sweep of the message cache. -/
theorem mem_cleanupCache {now : Nat} {cache : List (String × CacheEntry)}
    {kv : String × CacheEntry} :
    kv ∈ cleanupCache now cache ↔
      kv ∈ cache ∧ now - kv.2.lastFetched ≤ CACHE_EXPIRATION := by
  simp [cleanupCache, List.mem_filter, Nat.not_lt]

/-- In the `part_004` badge loop an owner badge anywhere forces the
result `'owner'`, whatever the current value is: the loop breaks only
on owner, so it always reaches the first owner badge. -/
theorem part4BadgeLoop_owner :
    ∀ (badges : List (Option String)) (cur : String),
      badges.any ownerBadgeB = true → part4BadgeLoop badges cur = "owner"
  | [], _, h => by simp at h
  | none :: rest, cur, h => by
    have h' : rest.any ownerBadgeB = true := by simpa [ownerBadgeB] using h
    simpa [part4BadgeLoop] using part4BadgeLoop_owner rest cur h'
  | some badgeText :: rest, cur, h => by
    by_cases ho : includesLower badgeText "owner"
    · simp [part4BadgeLoop, ho]
    · have h' : rest.any ownerBadgeB = true := by
        simpa [ownerBadgeB, ho] using h
      by_cases hm : includesLower badgeText "moderator"
      · simpa [part4BadgeLoop, ho, hm] using part4BadgeLoop_owner rest _ h'
      · by_cases hb : includesLower badgeText "member"
        · simpa [part4BadgeLoop, ho, hm, hb] using part4BadgeLoop_owner rest _ h'
        · simpa [part4BadgeLoop, ho, hm, hb] using part4BadgeLoop_owner rest _ h'

/-- The ids of the sorted dedup-merge are duplicate-free whenever the
cached ids and the new batch's ids are. -/
theorem mergedSorted_id_nodup (cached newMessages : List ChatMsg)
    (h1 : (cached.map (fun m => m.id)).Nodup)
    (h2 : (newMessages.map (fun m => m.id)).Nodup) :
    ((mergedSorted cached newMessages).map (fun m => m.id)).Nodup := by
  have hperm : List.Perm (mergedSorted cached newMessages)
      (cached ++ newMessages.filter
        (fun msg => !((cached.map (fun m => m.id)).contains msg.id))) :=
    sortByTs_perm _
  refine ((hperm.map (fun m => m.id)).symm).nodup ?_
  rw [List.map_append, List.nodup_append]
  refine ⟨h1, h2.sublist ((List.filter_sublist _).map _), ?_⟩
  intro a ha hb
  rcases List.mem_map.mp hb with ⟨m, hm, hma⟩
  rcases List.mem_filter.mp hm with ⟨_, hpred⟩
  have hnot : m.id ∉ cached.map (fun m => m.id) := by simpa using hpred
  exact hnot (hma ▸ ha)

/-! ## Claim theorems -/

/-- C1: the spec claims `extractVideoId` returns the 11-character id for
all four supported URL shapes including `/live/ID`; the regex has no
alternative matching `/live/` (and `isValidYouTubeUrl` nevertheless
lists `youtube.com/live/` as a valid shape), so a `/live/` URL with a
perfectly good 11-character id yields `none` while the same id in the
other shapes is extracted. -/
theorem extractVideoId_live_shape_fails :
    extractVideoId "https://www.youtube.com/live/abcdefghijk" = none ∧
    extractVideoId "https://www.youtube.com/watch?v=abcdefghijk" = some "abcdefghijk" ∧
    extractVideoId "https://youtu.be/abcdefghijk" = some "abcdefghijk" ∧
    extractVideoId "https://www.youtube.com/embed/abcdefghijk" = some "abcdefghijk" := by
  decide

/-- C2: after the merge step of a poll, the per-video cache has pairwise
distinct message ids (provided the cache's own ids and the incoming
batch's ids are duplicate-free — the merge dedups the batch only
against the cache), is sorted ascending by timestamp, holds at most
`MAX_CACHED_MESSAGES = 2000` entries, and when the merged list exceeds
2000 exactly the suffix of the ascending-sorted merge — the 2000 most
recent by timestamp — remains. -/
theorem mergeCache_invariant (cached newMessages : List ChatMsg)
    (h1 : (cached.map (fun m => m.id)).Nodup)
    (h2 : (newMessages.map (fun m => m.id)).Nodup) :
    ((mergeCache cached newMessages).map (fun m => m.id)).Nodup ∧
    (mergeCache cached newMessages).Sorted tsLe ∧
    (mergeCache cached newMessages).length ≤ MAX_CACHED_MESSAGES ∧
    ((mergedSorted cached newMessages).length > MAX_CACHED_MESSAGES →
      mergeCache cached newMessages =
        (mergedSorted cached newMessages).drop
          ((mergedSorted cached newMessages).length - MAX_CACHED_MESSAGES) ∧
      (mergeCache cached newMessages).length = MAX_CACHED_MESSAGES) := by
  have hnodup := mergedSorted_id_nodup cached newMessages h1 h2
  have hsorted : (mergedSorted cached newMessages).Sorted tsLe := sortByTs_sorted _
  simp only [mergeCache]
  by_cases hlen : (mergedSorted cached newMessages).length > MAX_CACHED_MESSAGES
  · rw [if_pos hlen]
    refine ⟨hnodup.sublist ((List.drop_sublist _ _).map _),
      List.Pairwise.sublist (List.drop_sublist _ _) hsorted, ?_, fun _ => ⟨rfl, ?_⟩⟩
    · rw [List.length_drop]; omega
    · rw [List.length_drop]; omega
  · rw [if_neg hlen]
    exact ⟨hnodup, hsorted, by omega, fun h => absurd h hlen⟩

/-- Witness for C2 at a concrete two-message merge. -/
theorem mergeCache_invariant_witness :
    ((mergeCache [⟨"a", 1⟩] [⟨"b", 2⟩]).map (fun m => m.id)).Nodup ∧
    (mergeCache [⟨"a", 1⟩] [⟨"b", 2⟩]).Sorted tsLe :=
  ⟨(mergeCache_invariant [⟨"a", 1⟩] [⟨"b", 2⟩] (by decide) (by decide)).1,
   (mergeCache_invariant [⟨"a", 1⟩] [⟨"b", 2⟩] (by decide) (by decide)).2.1⟩

/-- The two filter passes collapse to one filter with the conjoined
predicate (the id pass is skipped exactly when the exclusion list is
empty, in which case the id condition is vacuous). -/
theorem filterPhase_eq (msgs : List ChatMsg) (ids : List String) (t : Nat) :
    filterPhase msgs ids (some t) =
      sortByTs (msgs.filter
        (fun m => decide (m.timestamp > t) && !(ids.contains m.id))) := by
  cases ids with
  | nil =>
    simp only [filterPhase, List.length_nil]
    rw [if_neg (by omega)]
    congr 1
    refine (List.filter_congr ?_).symm
    intro x _
    simp [List.contains]
  | cons i is =>
    simp only [filterPhase, List.length_cons]
    rw [if_pos (Nat.succ_pos _), List.filter_filter]

/-- Same collapse when no `after` cursor is supplied. -/
theorem filterPhase_eq_none (msgs : List ChatMsg) (ids : List String) :
    filterPhase msgs ids none =
      sortByTs (msgs.filter (fun m => !(ids.contains m.id))) := by
  cases ids with
  | nil =>
    simp only [filterPhase, List.length_nil]
    rw [if_neg (by omega)]
    congr 1
    have h : msgs.filter (fun m => !(([] : List String).contains m.id)) =
        msgs.filter (fun _ => true) := by
      refine List.filter_congr ?_
      intro x _
      simp [List.contains]
    rw [h, List.filter_true]
  | cons i is =>
    simp only [filterPhase, List.length_cons]
    rw [if_pos (Nat.succ_pos _)]

/-- C3: the pre-pagination result of the cursor-based `getLiveChat` is
exactly the merged messages whose id is outside the exclusion set and
whose timestamp is strictly greater than the cursor, sorted ascending
by timestamp (a permutation of the one-pass filter, and sorted); with
no cursor only the id exclusion applies; and on a cached set of ten
messages with the cursor at message 5's timestamp the result is
exactly messages 6 through 10. -/
theorem filterPhase_spec :
    (∀ (msgs : List ChatMsg) (ids : List String) (t : Nat),
      (filterPhase msgs ids (some t)).Sorted tsLe ∧
      List.Perm (filterPhase msgs ids (some t))
        (msgs.filter (fun m => decide (m.timestamp > t) && !(ids.contains m.id)))) ∧
    (∀ (msgs : List ChatMsg) (ids : List String),
      List.Perm (filterPhase msgs ids none)
        (msgs.filter (fun m => !(ids.contains m.id)))) ∧
    filterPhase
      [⟨"m1", 1⟩, ⟨"m2", 2⟩, ⟨"m3", 3⟩, ⟨"m4", 4⟩, ⟨"m5", 5⟩,
       ⟨"m6", 6⟩, ⟨"m7", 7⟩, ⟨"m8", 8⟩, ⟨"m9", 9⟩, ⟨"m10", 10⟩] [] (some 5) =
      [⟨"m6", 6⟩, ⟨"m7", 7⟩, ⟨"m8", 8⟩, ⟨"m9", 9⟩, ⟨"m10", 10⟩] := by
  refine ⟨fun msgs ids t => ?_, fun msgs ids => ?_, by decide⟩
  · rw [filterPhase_eq]
    exact ⟨sortByTs_sorted _, sortByTs_perm _⟩
  · rw [filterPhase_eq_none]
    exact sortByTs_perm _

/-- C4 counterexample: the claim says an owner badge wins regardless of
its position and that a moderator badge beats a member badge.  In
`formatters.js` the loop has no break and no priority, so badges
`[OWNER, MEMBER]` yield `'member'` (the owner badge is overwritten); in
`part_004` only owner breaks, so badges `[Moderator, Member]` yield
`'member'` (the later member badge overwrites moderator). -/
theorem badgePriority_counterexample :
    userTypeFormatters [some "OWNER", some "MEMBER"] = "member" ∧
    userTypePart4 [some "Moderator", some "Member (1 month)"] = "member" ∧
    ("member" : String) ≠ "owner" ∧ ("member" : String) ≠ "moderator" := by
  decide

/-- C4 amended: both normalizers scan every badge with the spec's three
concrete vectors intact (`[member, owner] ↦ owner`, `[moderator] ↦
moderator`, `[] ↦ regular`), but the general priority differs from the
claim: in `formatters.js` the LAST recognized badge wins (so an
appended recognized badge decides the role, and an owner badge followed
by another recognized badge loses); in `part_004` an owner badge
anywhere does win regardless of position (the loop breaks only on
owner), while between moderator and member the last one encountered
wins. -/
theorem badgePriority_amended :
    (∀ badges : List (Option String),
      userTypeFormatters (badges ++ [some "OWNER"]) = "owner" ∧
      userTypeFormatters (badges ++ [some "MODERATOR"]) = "moderator" ∧
      userTypeFormatters (badges ++ [some "MEMBER"]) = "member") ∧
    (∀ badges : List (Option String),
      badges.any ownerBadgeB = true → userTypePart4 badges = "owner") ∧
    (userTypeFormatters [some "MEMBER", some "OWNER"] = "owner" ∧
      userTypeFormatters [some "MODERATOR"] = "moderator" ∧
      userTypeFormatters [] = "regular") ∧
    (userTypePart4 [some "Member (1 month)", some "Owner"] = "owner" ∧
      userTypePart4 [some "Moderator"] = "moderator" ∧
      userTypePart4 [] = "regular") := by
  refine ⟨fun badges => ?_, fun badges h => part4BadgeLoop_owner badges "regular" h,
    by decide, by decide⟩
  refine ⟨?_, ?_, ?_⟩ <;>
    · unfold userTypeFormatters
      rw [List.foldl_append]
      rfl

/-- Witness for C4's amended theorem: the owner-anywhere property of
`part_004` at a concrete badge list. -/
theorem badgePriority_amended_witness :
    userTypePart4 [some "Member (1 month)", some "Channel Owner"] = "owner" :=
  badgePriority_amended.2.1 [some "Member (1 month)", some "Channel Owner"] (by decide)

/-- C5 counterexample: the claim says the snapshot-style `getLiveChat`
returns the most recent `pageSize` messages of the combined filtered
list.  With `pageSize = 1` and two videos contributing one filtered
message each, the combined filtered list (2 messages) exceeds the page
size, yet the snapshot result is both messages — the `slice(-pageSize)`
truncation is applied per video, never to the combined list. -/
theorem snapshotPagination_counterexample :
    snapshotCombine [[⟨"a", 1⟩], [⟨"b", 2⟩]] 1 = [⟨"a", 1⟩, ⟨"b", 2⟩] ∧
    ([⟨"a", 1⟩, ⟨"b", 2⟩] : List ChatMsg).length > 1 := by
  decide

/-- C5 amended: when the combined filtered list exceeds `pageSize`, the
incremental-polling `getLiveChat` (part_006) returns the first
`pageSize` messages (head) with `hasMore = true` and `lastTimestamp`
equal to the last returned message's timestamp; the snapshot-style
`getLiveChat` (liveChat.js) truncates EACH video's filtered list to its
most recent `pageSize` entries (tail) before combining and sorting, so
its combined result may exceed `pageSize` when several videos
contribute.  Both response shapes exist as distinct contracts. -/
theorem pagination_amended :
    (∀ (msgs : List ChatMsg) (pageSize : Nat), msgs.length > pageSize →
      (paginateIncremental msgs pageSize).1 = msgs.take pageSize ∧
      (paginateIncremental msgs pageSize).2.1 = true ∧
      (paginateIncremental msgs pageSize).2.2 =
        ((msgs.take pageSize).getLast?).map (fun m => m.timestamp)) ∧
    (∀ (filtered : List ChatMsg) (pageSize : Nat), filtered.length > pageSize →
      snapshotTrunc pageSize filtered = filtered.drop (filtered.length - pageSize) ∧
      (snapshotTrunc pageSize filtered).length = pageSize) ∧
    (∀ (perVideo : List (List ChatMsg)) (pageSize : Nat),
      snapshotCombine perVideo pageSize =
        sortByTs ((perVideo.map (snapshotTrunc pageSize)).flatten)) := by
  refine ⟨fun msgs pageSize h => ?_, fun filtered pageSize h => ?_, fun _ _ => rfl⟩
  · simp only [paginateIncremental, decide_eq_true_eq]
    rw [if_pos h]
    exact ⟨rfl, by simpa using h, rfl⟩
  · simp only [snapshotTrunc]
    rw [if_pos h, List.length_drop]
    exact ⟨rfl, by omega⟩

/-- Witness for C5's amended theorem at a concrete overflowing list. -/
theorem pagination_amended_witness :
    (paginateIncremental [⟨"a", 1⟩, ⟨"b", 2⟩] 1).1 =
      ([⟨"a", 1⟩, ⟨"b", 2⟩] : List ChatMsg).take 1 ∧
    snapshotTrunc 1 [⟨"a", 1⟩, ⟨"b", 2⟩] =
      ([⟨"a", 1⟩, ⟨"b", 2⟩] : List ChatMsg).drop 1 :=
  ⟨(pagination_amended.1 [⟨"a", 1⟩, ⟨"b", 2⟩] 1 (by decide)).1,
   (pagination_amended.2.1 [⟨"a", 1⟩, ⟨"b", 2⟩] 1 (by decide)).1⟩

/-- C6 counterexample: the TS extractor caches its result even when the
continuation token is empty — after a fetch whose fallbacks all failed
(`liveChatToken = ''`), the token cache holds an entry with an empty
`continuationToken`, contradicting the claim that such a result is
never stored. -/
theorem tokenCache_counterexample :
    (((extractTokensStepTs [] "https://www.youtube.com/watch?v=abc12345678" 0
        "key" "2.0" "visitor" "" "<html>").1).lookup
      "https://www.youtube.com/watch?v=abc12345678").map
        (fun entry => entry.continuationToken) = some "" := by
  decide

/-- C6 amended: only `directTokenExtractor.js` enforces the invariant —
on an empty extracted continuation it returns `null` and leaves the
token cache untouched, and it preserves the invariant that every cached
entry has a non-empty continuation; `directTokenExtractor.ts` (and the
puppeteer variant, which caches the same way) stores the extraction
result unconditionally, so its cache can hold entries with an empty
continuation token. -/
theorem tokenCache_amended :
    (∀ (cache : List (String × TokenEntryJs)) (videoUrl : String) (now : Nat)
        (apiKey clientVersion visitorData rawHtml title channelName : String),
      (extractTokensStepJs cache videoUrl now apiKey clientVersion visitorData ""
        rawHtml title channelName).1 = cache) ∧
    (∀ (cache : List (String × TokenEntryJs)) (videoUrl : String) (now : Nat)
        (apiKey clientVersion visitorData liveChatToken rawHtml title channelName : String),
      (∀ kv ∈ cache, kv.2.continuation ≠ "") →
      ∀ kv, kv ∈ (extractTokensStepJs cache videoUrl now apiKey clientVersion
          visitorData liveChatToken rawHtml title channelName).1 →
        kv.2.continuation ≠ "") ∧
    (∀ (videoUrl : String) (now : Nat)
        (apiKey clientVersion visitorData rawHtml : String),
      (((extractTokensStepTs [] videoUrl now apiKey clientVersion visitorData ""
          rawHtml).1).lookup videoUrl).map (fun entry => entry.continuationToken) =
        some "") := by
  refine ⟨?_, ?_, ?_⟩
  · intro cache videoUrl now apiKey clientVersion visitorData rawHtml title channelName
    simp only [extractTokensStepJs]
    split
    · split
      · rfl
      · rfl
    · rfl
  · intro cache videoUrl now apiKey clientVersion visitorData liveChatToken
      rawHtml title channelName hinv kv hkv
    simp only [extractTokensStepJs] at hkv
    split at hkv
    · split at hkv
      · exact hinv kv hkv
      · split at hkv
        · exact hinv kv hkv
        · rename_i htok
          rcases mem_putEntry hkv with hold | hnew
          · exact hinv kv hold
          · rw [hnew]
            simpa [beq_iff_eq] using htok
    · split at hkv
      · exact hinv kv hkv
      · rename_i htok
        rcases mem_putEntry hkv with hold | hnew
        · exact hinv kv hold
        · rw [hnew]
          simpa [beq_iff_eq] using htok
  · intro videoUrl now apiKey clientVersion visitorData rawHtml
    simp [extractTokensStepTs, putEntry, List.lookup]

/-- Witness for C6's amended theorem: the non-empty-continuation
invariant of the JS extractor, applied starting from the empty cache
with a concrete non-empty token. -/
theorem tokenCache_amended_witness :
    ("u", (⟨"k", "v", "d", "tok", "h", 0, "t", "c"⟩ : TokenEntryJs)) ∈
        (extractTokensStepJs [] "u" 0 "k" "v" "d" "tok" "h" "t" "c").1 ∧
    ((⟨"k", "v", "d", "tok", "h", 0, "t", "c"⟩ : TokenEntryJs)).continuation ≠ "" :=
  ⟨by decide,
   tokenCache_amended.2.1 [] "u" 0 "k" "v" "d" "tok" "h" "t" "c"
     (fun kv hkv => absurd hkv (List.not_mem_nil kv))
     ("u", ⟨"k", "v", "d", "tok", "h", 0, "t", "c"⟩) (by decide)⟩

/-- C7 counterexample: with two raw action items and `pageSize = 1` the
poller returns the FIRST item (`slice(0, pageSize)` keeps the head), not
the page-size-long suffix the claim describes — the suffix would be the
second item. -/
theorem fetchMessages_counterexample :
    fetchMessagesResult [some "itemA", some "itemB"] 1 = ["itemA"] ∧
    (["itemA"] : List String) ≠ ["itemB"] := by
  decide

/-- C7 amended: when the upstream response holds more raw message items
than the requested page size, the returned raw message list is the
page-size-long PREFIX of the extracted item list (`slice(0, pageSize)`:
the first `pageSize` items from the head, not the tail). -/
theorem fetchMessages_amended :
    ∀ (actions : List (Option String)) (pageSize : Nat),
      fetchMessagesResult actions pageSize =
        (extractActionItems actions).take pageSize ∧
      (fetchMessagesResult actions pageSize).length =
        min pageSize (extractActionItems actions).length ∧
      ∃ t, fetchMessagesResult actions pageSize ++ t = extractActionItems actions := by
  intro actions pageSize
  refine ⟨rfl, ?_, ⟨(extractActionItems actions).drop pageSize, ?_⟩⟩
  · exact List.length_take pageSize (extractActionItems actions)
  · exact List.take_append_drop pageSize (extractActionItems actions)

/-- C8 counterexample: in `videoMetadata.js`, when token extraction
returns `null` and the direct metadata fallback also returns `null`
(total failure, nothing thrown), the per-URL processing pushes only an
error string and NO metadata record — contradicting the claim that on
total failure a zeroed record with a populated `error` is returned. -/
theorem metadataFailure_counterexample :
    processMetadataUrlJs "abc12345678" none none
        ⟨"abc12345678", "https://www.youtube.com/watch?v=abc12345678",
          none, 0, 0, false, none, none⟩ =
      (none, ["Could not extract metadata for video: abc12345678"]) := by
  rfl

/-- C8 amended: the metadata operations never raise; on a per-URL
failure `channelLiveVideos.ts` always returns a record with
`viewCount = 0`, `likeCount = 0` and `error` populated, and
`videoMetadata.js` does the same when processing throws, but on its
non-throwing total-failure path (tokens `null` and direct fetch `null`)
it produces only an error string and no record. -/
theorem metadataFailure_amended :
    (∀ (url e : String),
      (processMetadataUrlTs url (Except.error e)).viewCount = 0 ∧
      (processMetadataUrlTs url (Except.error e)).likeCount = 0 ∧
      (processMetadataUrlTs url (Except.error e)).error =
        some ("Failed to fetch: " ++ e)) ∧
    (∀ (videoId url errMsg : String),
      (jsCatchMetadata videoId url errMsg).viewCount = 0 ∧
      (jsCatchMetadata videoId url errMsg).likeCount = 0 ∧
      (jsCatchMetadata videoId url errMsg).error = some errMsg) ∧
    (∀ (videoId : String) (combined : VideoMetadataR),
      processMetadataUrlJs videoId none none combined =
        (none, ["Could not extract metadata for video: " ++ videoId])) := by
  exact ⟨fun url e => ⟨rfl, rfl, rfl⟩, fun videoId url errMsg => ⟨rfl, rfl, rfl⟩,
    fun videoId combined => rfl⟩

/-- C9: the like-count parser accepts all three upstream encodings —
the exact integer `1234` (reaching `parseInt` as its decimal digit
string), the comma-formatted string `"1,234"`, and the abbreviated
string `"19K"` — normalizing them to `1234`, `1234`, and `19000`
(base number times 1000). -/
theorem likeCount_encodings :
    likeCountFromEntity { likeCountIfIndifferentNumber := some "1234" } = some 1234 ∧
    likeCountFromEntity { expandedLikeCountIfIndifferentContent := some "1,234" } = some 1234 ∧
    likeCountFromEntity { likeCountIfIndifferentContent := some "19K" } = some 19000 := by
  decide

/-- C10: every per-URL pass of the cursor-based `getLiveChat` first
sweeps the PROCESS-WIDE message cache: an entry for any key other than
the requested video survives the call exactly when its `lastFetched` is
within the 5-minute expiration — entries of other videos that are older
are deleted, so a call for one video does not leave other videos' cache
entries unchanged. -/
theorem cacheStep_frame (videoId : String) (now : Nat) (newMessages : List ChatMsg)
    (continuation : Option String) (cache : List (String × CacheEntry))
    (k : String) (e : CacheEntry) (hk : k ≠ videoId) :
    (k, e) ∈ cacheStep videoId now newMessages continuation cache ↔
      (k, e) ∈ cache ∧ now - e.lastFetched ≤ CACHE_EXPIRATION := by
  simp only [cacheStep]
  cases h : (cleanupCache now cache).lookup videoId with
  | none =>
    rw [mem_putEntry_of_ne hk, mem_cleanupCache]
  | some entry =>
    rw [mem_putEntry_of_ne hk, mem_cleanupCache]

/-- Witness for C10: a cache entry of an unrequested video, fetched at
time 0, is gone after a call for another video at a time just past the
expiration window. -/
theorem cacheStep_frame_witness :
    ("otherVideo", (⟨[], 0, none⟩ : CacheEntry)) ∉
      cacheStep "requestedVid" 300001 [] none
        [("otherVideo", (⟨[], 0, none⟩ : CacheEntry))] := by
  intro hmem
  have h := (cacheStep_frame "requestedVid" 300001 [] none
    [("otherVideo", (⟨[], 0, none⟩ : CacheEntry))] "otherVideo"
    (⟨[], 0, none⟩ : CacheEntry) (by decide)).mp hmem
  exact absurd h.2 (by decide)

end YTChat
